import Mathlib

/-!
# Verification of the usvCommsSim packet protocol and simulation models

This file embeds, in Lean 4, the parts of the usvCommsSim repository that the
frozen claims talk about:

* `src/protocol/packet_formatter.py` — the `CommandCode` enumeration and the
  `PacketFormatter.build_cmd_packet` / `parse_cmd_packet` pair.  Byte strings
  are modelled as `List Nat` (each entry one byte); Python `struct` errors and
  `ValueError` are modelled by `Except String`.
* `models/game_state.py` (packaged copy under
  `dist/UUV Communication Simulator.app/Contents/Resources/models/`) — the
  `Submarine` data class with `is_safe_to_execute_command` and
  `execute_command`.  Real arithmetic on coordinates is modelled over `ℚ`;
  the trigonometric evaluations `cos(radians(heading))`, `sin(radians(heading))`
  are passed in as an explicit function parameter so that both the safety check
  and the execution step consult the same values, exactly as the source does.
* `models/acoustic_config.py` and `models/acoustic_physics.py` (same packaged
  directory) — the dB-to-linear conversions and the physics-based transmission
  loss / mean SNR / packet-loss-probability formulas, over `ℝ`.
* `src/models/communication_model.py` — the legacy heuristic
  `UnderwaterCommunicationModel` (propagation loss, SNR ladder, multipath
  interference) and its `simulate_transmission`, with the wall-clock reading
  `time.time()` and each `random.random()` draw passed as explicit arguments.
-/

/- ----------------------------------------------------------------- -/
/- `src/protocol/packet_formatter.py`                                  -/
/- ----------------------------------------------------------------- -/

/-- The `CommandCode` enumeration exactly as defined in
`src/protocol/packet_formatter.py` lines 8–11: it has the three members
`MOVE = 0x01`, `TURN = 0x02`, `STOP = 0x03` and no others. -/
inductive CommandCode where
  | MOVE
  | TURN
  | STOP
deriving DecidableEq, Repr

/-- Numeric value of each enum member (`MOVE = 0x01`, `TURN = 0x02`,
`STOP = 0x03`). -/
def CommandCode.toNat : CommandCode → Nat
  | .MOVE => 1
  | .TURN => 2
  | .STOP => 3

/-- Python `CommandCode(value)`: returns the member with that value, raises
`ValueError` (here: `none`) for any other value. -/
def CommandCode.ofValue : Nat → Option CommandCode
  | 1 => some .MOVE
  | 2 => some .TURN
  | 3 => some .STOP
  | _ => none

/-- Python attribute lookup `CommandCode.<NAME>`: defined exactly for the
member names appearing in the enum body, `AttributeError` (here: `none`)
for any other name.  The game and controller code refer to
`CommandCode.ASCEND`, `CommandCode.DESCEND` and `CommandCode.REPORT_STATUS`,
none of which are defined members. -/
def CommandCode.fromName : String → Option CommandCode
  | "MOVE" => some .MOVE
  | "TURN" => some .TURN
  | "STOP" => some .STOP
  | _ => none

/-- `PacketFormatter._crc16`: `sum(data) & 0xFFFF` (the bit-mask by
`0xFFFF` is reduction mod `2^16 = 65536`). -/
def crc16 (data : List Nat) : Nat := data.sum % 65536

/-- `struct.pack('>H', v)`: big-endian unsigned 16-bit; call sites keep
`v < 65536` (otherwise Python raises, which the callers below guard). -/
def packU16 (v : Nat) : List Nat := [v / 256, v % 256]

/-- `struct.pack('>h', param)`: big-endian signed 16-bit two's complement,
defined for `-32768 ≤ param ≤ 32767`; the representative is
`param mod 2^16`. -/
def packI16 (param : Int) : List Nat := packU16 ((param % 65536).toNat)

/-- Reading a big-endian signed 16-bit value back (`struct.unpack('>h', ·)`
applied to the two raw bytes recombined as `hi*256 + lo`). -/
def signExtend16 (v : Nat) : Int :=
  if v < 32768 then (v : Int) else (v : Int) - 65536

/-- `PacketFormatter.build_cmd_packet`: body is
`struct.pack('>B h B', cmd_code, param, len(missing_status_seqs))` followed by
one `struct.pack('>H', seq)` per missing sequence number, then the CRC-16 of
the body appended as `struct.pack('>H', crc)`.  `struct.pack` raises
(`none` here) when `param` is outside the signed 16-bit range, when the
count does not fit in one byte, or when a sequence number exceeds 16 bits. -/
def build_cmd_packet (cmd : CommandCode) (param : Int)
    (missing_status_seqs : List Nat) : Option (List Nat) :=
  if -32768 ≤ param ∧ param ≤ 32767 ∧ missing_status_seqs.length ≤ 255 ∧
      ∀ s ∈ missing_status_seqs, s ≤ 65535 then
    let body := cmd.toNat :: packI16 param ++
      missing_status_seqs.length :: (missing_status_seqs.map packU16).flatten
    some (body ++ packU16 (crc16 body))
  else
    none

/-- Result record of `PacketFormatter.parse_cmd_packet` (the returned dict). -/
structure ParsedCmd where
  command : CommandCode
  param : Int
  missing_status_seqs : List Nat
  crc_valid : Bool
deriving DecidableEq, Repr

/-- The loop in `parse_cmd_packet` that reads `miss_count` big-endian 16-bit
sequence numbers; each iteration unpacks two bytes and advances the offset,
and raises `struct.error` when fewer than two bytes remain. -/
def readSeqs : Nat → List Nat → Except String (List Nat × List Nat)
  | 0, rest => .ok ([], rest)
  | Nat.succ n, b1 :: b2 :: rest =>
    match readSeqs n rest with
    | .ok (seqs, rest') => .ok ((b1 * 256 + b2) :: seqs, rest')
    | .error e => .error e
  | Nat.succ _, _ => .error "unpack requires a buffer of 2 bytes"

/-- `PacketFormatter.parse_cmd_packet`: unpack the 4-byte `'>B h B'` header
from `data[:4]` (raising when the buffer is shorter), read `miss_count`
16-bit sequence numbers, unpack the received CRC from the next two bytes,
recompute the CRC over `data[:offset]`, and build the result dict — where
`CommandCode(cmd_code)` raises `ValueError` for an unknown opcode byte.
Errors are reproduced in the same order the Python statements run. -/
def parse_cmd_packet (data : List Nat) : Except String ParsedCmd :=
  match data with
  | b0 :: b1 :: b2 :: b3 :: rest =>
    match readSeqs b3 rest with
    | .error e => .error e
    | .ok (missing, rest') =>
      match rest' with
      | c1 :: c2 :: _ =>
        let crcRecv := c1 * 256 + c2
        let body := b0 :: b1 :: b2 :: b3 :: rest.take (2 * b3)
        match CommandCode.ofValue b0 with
        | some cmd =>
          .ok ⟨cmd, signExtend16 (b1 * 256 + b2), missing,
            decide (crcRecv = crc16 body)⟩
        | none => .error "ValueError: not a valid CommandCode"
      | _ => .error "unpack requires a buffer of 2 bytes"
  | _ => .error "unpack requires a buffer of 4 bytes"

/-- Successful-parse view: `some` of the returned record when
`parse_cmd_packet` returns normally, `none` when it raises. -/
def parseOk (data : List Nat) : Option ParsedCmd :=
  match parse_cmd_packet data with
  | .ok r => some r
  | .error _ => none

/- ----------------------------------------------------------------- -/
/- `models/game_state.py` (packaged copy under dist/.../Resources)    -/
/- ----------------------------------------------------------------- -/

/-- Modelled from the spec: the full six-value command-code enumeration
(MOVE, TURN, STOP, ASCEND, DESCEND, REPORT_STATUS) that the packaged
application's packet formatter provides.  `models/game_state.py` imports
`CommandCode` from `protocol.packet_formatter` and branches on all six
names, but the copy of `packet_formatter.py` under `src/protocol` defines
only the first three members; the six-value variant the game code needs is
not among the provided sources, so it is reconstructed here from the spec's
opcode list. -/
inductive FullCommandCode where
  | MOVE
  | TURN
  | STOP
  | ASCEND
  | DESCEND
  | REPORT_STATUS
deriving DecidableEq, Repr

/-- `VehicleState` enum from `models/game_state.py`. -/
inductive VehicleState where
  | IDLE
  | MOVING
  | TURNING
  | ASCENDING
  | DESCENDING
  | STOPPED
deriving DecidableEq, Repr

/-- The `Submarine` dataclass fields the claims are about, with the source's
default values.  Coordinates, depth and rates are modelled over `ℚ`; the
`EnvironmentalSensors` object is not carried (its readings are derived from
depth with fresh RNG draws inside `update_sensors` and no claim mentions
them), but the directly updated `pressure` field is kept. -/
structure Submarine where
  x : ℚ
  y : ℚ
  z : ℚ
  heading : ℚ
  depth : ℚ
  pressure : ℚ := 0
  state : VehicleState := .IDLE
  max_depth : ℚ := 200
  min_depth : ℚ := 0
  speed : ℚ := 5
  turn_rate : ℚ := 10
  ascent_descent_rate : ℚ := 2
  max_safe_distance_from_ship : ℚ := 2000
deriving DecidableEq, Repr

/-- Python `%` on numbers (sign follows the divisor), used by
`self.heading = (self.heading + turn_amount) % 360`. -/
def pymod (a b : ℚ) : ℚ := a - b * ⌊a / b⌋

/-- `Submarine.update_pressure`: `pressure = 1013.25 + depth * 101.325`
(the deterministic part of `update_sensors`). -/
def updatePressure (sub : Submarine) : Submarine :=
  { sub with pressure := 1013.25 + sub.depth * 101.325 }

/-- `Submarine.is_safe_to_execute_command`.  `trig h` stands for the pair
`(math.cos(math.radians(h)), math.sin(math.radians(h)))`, evaluated on the
current heading exactly as in the source.  The source computes
`new_distance = math.sqrt(new_x**2 + new_y**2)` and tests
`new_distance > max_safe_distance_from_ship`; with a nonnegative bound this
is equivalent to the square comparison used here (ℚ has no exact square
root).  `world_boundary` is the hardcoded conservative constant `400.0` of
the source.  The interpolated numeric suffixes of the Python reason strings
(`f"..._{new_distance:.1f}m"`) are not carried. -/
def is_safe_to_execute_command (trig : ℚ → ℚ × ℚ) (sub : Submarine)
    (cmd : FullCommandCode) (param : ℤ) : Bool × String :=
  match cmd with
  | .MOVE =>
    let c := (trig sub.heading).1
    let s := (trig sub.heading).2
    let newX := sub.x + (param : ℚ) * c
    let newY := sub.y + (param : ℚ) * s
    if sub.max_safe_distance_from_ship ^ 2 < newX ^ 2 + newY ^ 2 then
      (false, "move_would_exceed_safe_distance")
    else if 400 < |newX| ∨ 400 < |newY| then
      (false, "move_would_exceed_world_bounds")
    else
      (true, "safe_to_execute")
  | .DESCEND =>
    if sub.max_depth < sub.depth + (param : ℚ) then
      (false, "descend_would_exceed_max_depth")
    else
      (true, "safe_to_execute")
  | .ASCEND =>
    if sub.depth - (param : ℚ) < sub.min_depth then
      (false, "ascend_would_exceed_min_depth")
    else
      (true, "safe_to_execute")
  | _ => (true, "safe_to_execute")

/-- `Submarine.execute_command` (ship at the default origin): run the safety
check first and return its reason unchanged on rejection; otherwise run the
per-command branch.  A branch whose inner guard fails falls through to the
final `return False, "command_not_executed"`.  The returned value pairs the
Python `(bool, reason)` result with the submarine state after the call
(Python mutates `self` in place). -/
def execute_command (trig : ℚ → ℚ × ℚ) (sub : Submarine)
    (cmd : FullCommandCode) (param : ℤ) : (Bool × String) × Submarine :=
  let safe := is_safe_to_execute_command trig sub cmd param
  if safe.1 = false then
    ((false, safe.2), sub)
  else
    match cmd with
    | .MOVE =>
      if sub.state = .IDLE ∨ sub.state = .STOPPED then
        let c := (trig sub.heading).1
        let s := (trig sub.heading).2
        let distance := min (param : ℚ) sub.speed
        ((true, "move_executed"),
          updatePressure { sub with
            state := .MOVING,
            x := sub.x + distance * c,
            y := sub.y + distance * s })
      else
        ((false, "command_not_executed"), sub)
    | .TURN =>
      if sub.state = .IDLE ∨ sub.state = .STOPPED then
        let turn_amount := max (-sub.turn_rate) (min sub.turn_rate (param : ℚ))
        ((true, "turn_executed"),
          { sub with
            state := .TURNING,
            heading := pymod (sub.heading + turn_amount) 360 })
      else
        ((false, "command_not_executed"), sub)
    | .STOP =>
      ((true, "stop_executed"), { sub with state := .STOPPED })
    | .ASCEND =>
      if sub.min_depth < sub.depth then
        let ascent := min (param : ℚ) sub.ascent_descent_rate
        ((true, "ascend_executed"),
          updatePressure { sub with
            state := .ASCENDING,
            depth := max sub.min_depth (sub.depth - ascent) })
      else
        ((false, "command_not_executed"), sub)
    | .DESCEND =>
      if sub.depth < sub.max_depth then
        let descent := min (param : ℚ) sub.ascent_descent_rate
        ((true, "descend_executed"),
          updatePressure { sub with
            state := .DESCENDING,
            depth := min sub.max_depth (sub.depth + descent) })
      else
        ((false, "command_not_executed"), sub)
    | .REPORT_STATUS =>
      ((true, "status_report_requested"), sub)

/-- Executing a finite sequence of commands, threading the submarine state
through `execute_command` (each call uses the state left by the previous
one, as the in-place mutation in the source does). -/
def execute_sequence (trig : ℚ → ℚ × ℚ) (sub : Submarine)
    (cmds : List (FullCommandCode × ℤ)) : Submarine :=
  cmds.foldl (fun s c => (execute_command trig s c.1 c.2).2) sub

/-- Modelled from the spec: the MOVE safety check as claim C6 words it —
project the new position along the current heading by the *clamped*
displacement `min(param, speed)` (the displacement an accepted MOVE
actually applies) and accept unless the projected distance from the ship
origin exceeds `max_safe_distance_from_ship` or the projected `|x|` or
`|y|` exceeds the world half-extent `halfExtent`. -/
def specSafeMove (trig : ℚ → ℚ × ℚ) (halfExtent : ℚ) (sub : Submarine)
    (param : ℤ) : Bool :=
  let c := (trig sub.heading).1
  let s := (trig sub.heading).2
  let d := min (param : ℚ) sub.speed
  let newX := sub.x + d * c
  let newY := sub.y + d * s
  decide (newX ^ 2 + newY ^ 2 ≤ sub.max_safe_distance_from_ship ^ 2 ∧
    |newX| ≤ halfExtent ∧ |newY| ≤ halfExtent)

/- ----------------------------------------------------------------- -/
/- `models/acoustic_config.py` (packaged copy under dist/.../Resources)-/
/- ----------------------------------------------------------------- -/

/-- `AcousticPhysicsConfig` dataclass with the source's default field
values (the module-level `DEFAULT_CONFIG` is an instance with exactly these
defaults).  `baseline_packet_size` is an `int` in the source and enters
only real-valued arithmetic, so it is carried as `ℝ` here. -/
structure AcousticPhysicsConfig where
  transmission_power_db : ℝ := 170
  frequency_hz : ℝ := 12000
  noise_level_db : ℝ := 50
  required_snr_db : ℝ := 10
  spreading_exponent : ℝ := 1.5
  site_anomaly_db : ℝ := 0
  baseline_packet_size : ℝ := 50
  size_adjustment_factor : ℝ := 500
  max_size_penalty : ℝ := 2

/-- `DEFAULT_CONFIG = AcousticPhysicsConfig()`. -/
def DEFAULT_CONFIG : AcousticPhysicsConfig := {}

/-- `AcousticPhysicsConfig.frequency_khz`: `frequency_hz / 1000.0`. -/
noncomputable def frequency_khz (cfg : AcousticPhysicsConfig) : ℝ :=
  cfg.frequency_hz / 1000

/-- `AcousticPhysicsConfig.transmission_pressure_linear`:
`10.0 ** (transmission_power_db / 20.0)` (real-exponent power). -/
noncomputable def transmission_pressure_linear (cfg : AcousticPhysicsConfig) : ℝ :=
  (10 : ℝ) ^ (cfg.transmission_power_db / 20)

/-- `AcousticPhysicsConfig.noise_pressure_linear`:
`10.0 ** (noise_level_db / 20.0)`. -/
noncomputable def noise_pressure_linear (cfg : AcousticPhysicsConfig) : ℝ :=
  (10 : ℝ) ^ (cfg.noise_level_db / 20)

/-- `AcousticPhysicsConfig.transmission_power_linear`:
`transmission_pressure_linear ** 2`. -/
noncomputable def transmission_power_linear (cfg : AcousticPhysicsConfig) : ℝ :=
  transmission_pressure_linear cfg ^ (2 : ℕ)

/-- `AcousticPhysicsConfig.noise_power_linear`: `noise_pressure_linear ** 2`. -/
noncomputable def noise_power_linear (cfg : AcousticPhysicsConfig) : ℝ :=
  noise_pressure_linear cfg ^ (2 : ℕ)

/-- `AcousticPhysicsConfig.required_snr_linear`:
`10.0 ** (required_snr_db / 10.0)`. -/
noncomputable def required_snr_linear (cfg : AcousticPhysicsConfig) : ℝ :=
  (10 : ℝ) ^ (cfg.required_snr_db / 10)

/-- Modelled from the spec: the "uncorrected (dB/10-only)" conversion that
claim C3 compares against — a prior variant that turned a dB level `L`
directly into the linear power `10^(L/10)`.  That variant is not among the
provided sources (only the corrected `acoustic_config.py` is), so it is
written down here from the spec's words. -/
noncomputable def db10_only_power_linear (db : ℝ) : ℝ :=
  (10 : ℝ) ^ (db / 10)

/- ----------------------------------------------------------------- -/
/- `models/acoustic_physics.py` (packaged copy under dist/.../Resources)-/
/- ----------------------------------------------------------------- -/

/-- `alpha_thorp`: Thorp's absorption coefficient in dB per meter. -/
noncomputable def alpha_thorp (f_khz : ℝ) : ℝ :=
  (0.11 * f_khz ^ 2 / (1 + f_khz ^ 2)
    + 44 * f_khz ^ 2 / (4100 + f_khz ^ 2)
    + 2.75e-4 * f_khz ^ 2
    + 0.003) / 1000

/-- `transmission_loss`: `10.0 * spreading_exp * math.log10(d_m)` plus
absorption `alpha_thorp(f) * d_m` plus the site anomaly. -/
noncomputable def transmission_loss (d_m f_khz spreading_exp anomaly_db : ℝ) : ℝ :=
  10 * spreading_exp * Real.logb 10 d_m + alpha_thorp f_khz * d_m + anomaly_db

/-- `linear_attenuation`: `10.0 ** (TL_db / 10.0)`. -/
noncomputable def linear_attenuation (TL_db : ℝ) : ℝ :=
  (10 : ℝ) ^ (TL_db / 10)

/-- `compute_gamma_mean`: `gamma_0 / L_lin` with `gamma_0 = P0 / N`. -/
noncomputable def compute_gamma_mean (d_m P0 N f_khz spreading_exp anomaly_db : ℝ) : ℝ :=
  (P0 / N) / linear_attenuation (transmission_loss d_m f_khz spreading_exp anomaly_db)

/-- `packet_loss_probability`: `1.0 - math.exp(-gamma_req / gamma_mean)`
(Rayleigh fading). -/
noncomputable def packet_loss_probability
    (d_m P0 N f_khz gamma_req spreading_exp anomaly_db : ℝ) : ℝ :=
  1 - Real.exp (-(gamma_req / compute_gamma_mean d_m P0 N f_khz spreading_exp anomaly_db))

/- ----------------------------------------------------------------- -/
/- `models/communication_model.py` (packaged copy: physics-based model) -/
/- ----------------------------------------------------------------- -/

/-- The physics-based `UnderwaterCommunicationModel.calculate_packet_loss_probability`
of the packaged `models/communication_model.py`: `P0`, `noise_psd`,
`gamma_req`, `spreading_exp`, `anomaly_db` and `f_khz` are the cached
linear-domain values the constructor derives from the `AcousticPhysicsConfig`.
The `except (ValueError, ZeroDivisionError, OverflowError)` fallback of the
source guards floating-point evaluation; over `ℝ` the guarded branch
(`distance ≥ 1`) is everywhere defined, so no exceptional case arises. -/
noncomputable def physics_calculate_packet_loss_probability
    (cfg : AcousticPhysicsConfig)
    (distance ship_depth sub_depth packet_size : ℝ) : ℝ × String :=
  if distance ≤ 0 then (0, "zero_distance")
  else if distance < 1 then (0.01, "close_range")
  else
    let gamma_mean := compute_gamma_mean distance (transmission_power_linear cfg)
      (noise_power_linear cfg) (frequency_khz cfg)
      cfg.spreading_exponent cfg.site_anomaly_db
    let P_loss := packet_loss_probability distance (transmission_power_linear cfg)
      (noise_power_linear cfg) (frequency_khz cfg) (required_snr_linear cfg)
      cfg.spreading_exponent cfg.site_anomaly_db
    let reason :=
      if gamma_mean < 1 then "very_low_snr"
      else if gamma_mean < 3.16 then "low_snr"
      else if gamma_mean < 10 then "moderate_snr"
      else if gamma_mean < 31.6 then "acceptable_snr"
      else "good_snr"
    let size_factor := max 1 (min cfg.max_size_penalty
      (1 + (packet_size - cfg.baseline_packet_size) / cfg.size_adjustment_factor))
    (min 0.99 (P_loss * size_factor), reason)

/- ----------------------------------------------------------------- -/
/- `src/models/communication_model.py` (legacy heuristic model)        -/
/- ----------------------------------------------------------------- -/

namespace LegacyModel

/-- `CommunicationEnvironment.calculate_sound_velocity` (simplified
Mackenzie equation); `S` is the environment's salinity. -/
noncomputable def calculate_sound_velocity (salinity depth temp : ℝ) : ℝ :=
  1448.96 + 4.591 * temp - 5.304e-2 * temp ^ 2 + 2.374e-4 * temp ^ 3
    + 1.340 * (salinity - 35) + 1.630e-2 * depth + 1.675e-7 * depth ^ 2

/-- `UnderwaterCommunicationModel.calculate_propagation_loss` of the legacy
heuristic model.  Both arms of the source's `f_khz < 0.4` conditional
compute the identical expression, so the conditional is collapsed.
`sea_state` is the environment's sea state (constructor default `2`). -/
noncomputable def calculate_propagation_loss
    (sea_state distance frequency depth : ℝ) : ℝ :=
  if distance ≤ 0 then 0
  else
    let f_khz := frequency / 1000
    let alpha := 0.002 + 0.11 * f_khz ^ 2 / (1 + f_khz ^ 2) + 0.011 * f_khz ^ 2
    let geometric_loss := if 1 < distance then 20 * Real.logb 10 distance else 0
    let absorption_loss := alpha * (distance / 1000)
    let depth_factor := 1 + depth / 1000 * 0.1
    let sea_state_factor := 1 + sea_state / 6 * 0.2
    (geometric_loss + absorption_loss) * (depth_factor * sea_state_factor)

/-- `UnderwaterCommunicationModel.calculate_multipath_effects`: surface and
bottom reflection delays (bottom assumed at 100 m, sound velocity the
environment's base 1500 m/s) and the random interference factor
`0.8 + 0.2 * random.random()`; `u` is that `random.random()` draw. -/
noncomputable def calculate_multipath_effects (distance depth_diff u : ℝ) : ℝ × ℝ :=
  let surface_path := Real.sqrt (distance ^ 2 + (2 * depth_diff) ^ 2)
  let surface_delay := (surface_path - distance) / 1500
  let bottom_path := Real.sqrt (distance ^ 2 + (2 * (100 - depth_diff)) ^ 2)
  let bottom_delay := (bottom_path - distance) / 1500
  (min surface_delay bottom_delay, 0.8 + 0.2 * u)

/-- `UnderwaterCommunicationModel.calculate_propagation_delay` with the
constructor's environment (water temperature 15 °C, salinity 35 ppt). -/
noncomputable def calculate_propagation_delay (distance ship_depth sub_depth : ℝ) : ℝ :=
  let avg_depth := (ship_depth + sub_depth) / 2
  let temp_at_depth := 15 - avg_depth / 100 * 2
  distance / calculate_sound_velocity 35 avg_depth temp_at_depth

/-- `UnderwaterCommunicationModel.calculate_packet_loss_probability` of the
legacy heuristic model in `src/models/communication_model.py` (lines
128–171), with the constructor's fixed parameters: transmission power
180 dB, noise level 50 dB, frequency 12 kHz, `max_reliable_range` 1000 m,
environment sea state 2.  `u` is the `random.random()` draw consumed by the
inner `calculate_multipath_effects` call.  Note there is no
`distance <= 0` special case in this version: a zero-distance call takes
the ordinary SNR-ladder path. -/
noncomputable def calculate_packet_loss_probability
    (distance ship_depth sub_depth packet_size u : ℝ) : ℝ × String :=
  let prop_loss := calculate_propagation_loss 2 distance 12000 sub_depth
  let received_power := 180 - prop_loss
  let snr := received_power - 50
  if 1000 < distance then (0.95, "out_of_range")
  else
    let sl : ℝ × String :=
      if snr < 10 then (0.8, "low_snr")
      else if snr < 15 then (0.4, "moderate_snr")
      else if snr < 20 then (0.1, "acceptable_snr")
      else (0.02, "good_snr")
    let size_factor := max 1 (1 + (packet_size - 50) / 1000)
    let depth_factor := 1 + |ship_depth - sub_depth| / 200 * 0.1
    let sea_state_factor := 1 + (2 : ℝ) / 6 * 0.3
    let multipath_factor :=
      2 - (calculate_multipath_effects distance |ship_depth - sub_depth| u).2
    (min 0.98 (sl.1 * size_factor * depth_factor * sea_state_factor * multipath_factor),
      sl.2)

/-- The `PacketTransmission` dataclass of
`src/models/communication_model.py`. -/
structure PacketTransmission where
  packet_id : String
  sender : String
  receiver : String
  packet_type : String
  data_size : ℕ
  transmission_time : ℝ
  arrival_time : Option ℝ := none
  propagation_delay : ℝ := 0
  is_lost : Bool := false
  loss_reason : String := ""
  signal_strength : ℝ := 1
  multipath_delay : ℝ := 0

/-- `PacketTransmission.total_delay`. -/
noncomputable def PacketTransmission.total_delay (t : PacketTransmission) : ℝ :=
  t.propagation_delay + t.multipath_delay

/-- `UnderwaterCommunicationModel.simulate_transmission` (lines 174–221 of
`src/models/communication_model.py`).  The implicit runtime inputs are made
explicit arguments: `counter` is `self.packet_counter` before the call
(the method increments it and uses the incremented value in the packet id);
`now` is the value `time.time()` returns — the wall clock at the moment of
the call, not a simulation quantity; `u1`, `u2`, `u3` are the three
`random.random()` draws consumed, in order, by the outer
`calculate_multipath_effects` call, the one inside
`calculate_packet_loss_probability`, and the loss decision. -/
noncomputable def simulate_transmission (counter : ℕ)
    (sender receiver packet_type : String) (data_size : ℕ)
    (ship_pos sub_pos : ℝ × ℝ × ℝ) (now u1 u2 u3 : ℝ) : PacketTransmission :=
  let distance := Real.sqrt ((ship_pos.1 - sub_pos.1) ^ 2
    + (ship_pos.2.1 - sub_pos.2.1) ^ 2 + (ship_pos.2.2 - sub_pos.2.2) ^ 2)
  let ship_depth := ship_pos.2.2
  let sub_depth := sub_pos.2.2
  let mp := calculate_multipath_effects distance |ship_depth - sub_depth| u1
  let lossR := calculate_packet_loss_probability distance ship_depth sub_depth
    (data_size : ℝ) u2
  let prop_delay := calculate_propagation_delay distance ship_depth sub_depth
  let lost : Bool := decide (u3 < lossR.1)
  { packet_id := sender ++ "_" ++ packet_type ++ "_" ++ toString (counter + 1)
    sender := sender
    receiver := receiver
    packet_type := packet_type
    data_size := data_size
    transmission_time := now
    propagation_delay := prop_delay
    multipath_delay := mp.1
    signal_strength := mp.2
    is_lost := lost
    loss_reason := if lost then lossR.2 else ""
    arrival_time := if lost then none else some (now + (prop_delay + mp.1)) }

end LegacyModel

/- ----------------------------------------------------------------- -/
/- Supporting lemmas                                                   -/
/- ----------------------------------------------------------------- -/

/-- Recombining the two bytes of a big-endian 16-bit value. -/
theorem packU16_recombine (v : Nat) : v / 256 * 256 + v % 256 = v := by omega

/-- Unpacking the signed 16-bit representative produced by `packI16`
recovers the original in-range parameter. -/
theorem signExtend16_packI16 (param : Int)
    (h1 : -32768 ≤ param) (h2 : param ≤ 32767) :
    signExtend16 ((param % 65536).toNat) = param := by
  unfold signExtend16
  split <;> omega

/-- `parse_cmd_packet` on an explicit six-byte buffer with a zero
missing-count byte. -/
theorem parse_six (t hi lo c1 c2 : Nat) (cmd : CommandCode)
    (hv : CommandCode.ofValue t = some cmd) :
    parse_cmd_packet [t, hi, lo, 0, c1, c2] =
      .ok ⟨cmd, signExtend16 (hi * 256 + lo), [],
        decide (c1 * 256 + c2 = crc16 [t, hi, lo, 0])⟩ := by
  simp [parse_cmd_packet, readSeqs, hv]

/-- A successful `readSeqs` consumed exactly two bytes per requested
sequence number. -/
theorem readSeqs_ok_length :
    ∀ (n : Nat) (rest seqs rest' : List Nat),
      readSeqs n rest = .ok (seqs, rest') →
      rest.length = 2 * n + rest'.length := by
  intro n
  induction n with
  | zero =>
    intro rest seqs rest' h
    simp [readSeqs] at h
    simp [h.2]
  | succ n ih =>
    intro rest seqs rest' h
    match rest with
    | [] => simp [readSeqs] at h
    | [b1] => simp [readSeqs] at h
    | b1 :: b2 :: rest2 =>
      rw [readSeqs] at h
      cases hr : readSeqs n rest2 with
      | error e => rw [hr] at h; simp at h
      | ok p =>
        rw [hr] at h
        simp at h
        have hlen := ih rest2 p.1 p.2 (by rw [hr])
        simp [← h.2, List.length_cons]
        omega

/-- `readSeqs` raises when fewer than two bytes per requested sequence
number remain. -/
theorem readSeqs_short :
    ∀ (n : Nat) (rest : List Nat), rest.length < 2 * n →
      ∃ e, readSeqs n rest = .error e := by
  intro n
  induction n with
  | zero => intro rest h; omega
  | succ n ih =>
    intro rest h
    match rest with
    | [] => exact ⟨_, rfl⟩
    | [b1] => exact ⟨_, rfl⟩
    | b1 :: b2 :: rest2 =>
      obtain ⟨e, he⟩ := ih rest2 (by simp at h; omega)
      exact ⟨e, by rw [readSeqs, he]⟩

/- ----------------------------------------------------------------- -/
/- Claim theorems                                                      -/
/- ----------------------------------------------------------------- -/

/-- **C1.**  The claim says the command-code enumeration used by the packet
protocol defines all six opcodes MOVE, TURN, STOP, ASCEND, DESCEND and
REPORT_STATUS.  Evaluating the enumeration of
`src/protocol/packet_formatter.py` shows it defines only the three members
MOVE, TURN, STOP: attribute lookups for `ASCEND`, `DESCEND` and
`REPORT_STATUS` fail (Python raises `AttributeError`), and every member of
the enumeration is one of the three, so the other three commands cannot be
encoded into a command packet at all. -/
theorem commandCode_defines_only_three_opcodes :
    CommandCode.fromName "ASCEND" = none ∧
    CommandCode.fromName "DESCEND" = none ∧
    CommandCode.fromName "REPORT_STATUS" = none ∧
    ∀ c : CommandCode, c = .MOVE ∨ c = .TURN ∨ c = .STOP := by
  refine ⟨by decide, by decide, by decide, ?_⟩
  intro c
  cases c
  · exact Or.inl rfl
  · exact Or.inr (Or.inl rfl)
  · exact Or.inr (Or.inr rfl)

/-- **C2.**  For every opcode of the command-code enumeration and every
parameter in the signed 16-bit range, building a command packet with no
missing-sequence entries succeeds, and parsing it returns the same command,
the same parameter, an empty missing list, and `crc_valid = true`. -/
theorem build_parse_cmd_roundtrip (cmd : CommandCode) (param : Int)
    (h1 : -32768 ≤ param) (h2 : param ≤ 32767) :
    ∃ pkt, build_cmd_packet cmd param [] = some pkt ∧
      parse_cmd_packet pkt = .ok ⟨cmd, param, [], true⟩ := by
  have hvt : CommandCode.ofValue cmd.toNat = some cmd := by
    cases cmd <;> rfl
  have hcond : -32768 ≤ param ∧ param ≤ 32767 ∧
      ([] : List Nat).length ≤ 255 ∧ ∀ s ∈ ([] : List Nat), s ≤ 65535 :=
    ⟨h1, h2, by simp, by simp⟩
  refine ⟨[cmd.toNat, (param % 65536).toNat / 256, (param % 65536).toNat % 256, 0,
      crc16 [cmd.toNat, (param % 65536).toNat / 256, (param % 65536).toNat % 256, 0] / 256,
      crc16 [cmd.toNat, (param % 65536).toNat / 256, (param % 65536).toNat % 256, 0] % 256],
    ?_, ?_⟩
  · rw [build_cmd_packet, if_pos hcond]
    simp [packI16, packU16]
  · rw [parse_six _ _ _ _ _ cmd hvt, packU16_recombine, packU16_recombine,
      signExtend16_packI16 param h1 h2]
    simp

/-- **C2 witness.** -/
theorem build_parse_cmd_roundtrip_witness :
    (-32768 ≤ (-5 : Int) ∧ (-5 : Int) ≤ 32767) ∧
    ∃ pkt, build_cmd_packet .MOVE (-5) [] = some pkt ∧
      parse_cmd_packet pkt = .ok ⟨.MOVE, -5, [], true⟩ :=
  ⟨by decide, build_parse_cmd_roundtrip .MOVE (-5) (by decide) (by decide)⟩

/-- **C10.**  Decoding of command packets is not total: every buffer
shorter than the fixed 4-byte header makes `parse_cmd_packet` raise, and so
does every buffer whose declared missing-count byte promises more trailing
bytes (two per missing sequence number, plus the two CRC bytes) than are
present after the header. -/
theorem parse_cmd_packet_not_total :
    (∀ data : List Nat, data.length < 4 → parseOk data = none) ∧
    (∀ b0 b1 b2 b3 : Nat, ∀ rest : List Nat, rest.length < 2 * b3 + 2 →
      parseOk (b0 :: b1 :: b2 :: b3 :: rest) = none) := by
  constructor
  · intro data h
    match data with
    | [] => rfl
    | [_] => rfl
    | [_, _] => rfl
    | [_, _, _] => rfl
    | _ :: _ :: _ :: _ :: _ => simp at h; omega
  · intro b0 b1 b2 b3 rest h
    rcases Nat.lt_or_ge rest.length (2 * b3) with hshort | hok
    · obtain ⟨e, he⟩ := readSeqs_short b3 rest hshort
      simp [parseOk, parse_cmd_packet, he]
    · cases hr : readSeqs b3 rest with
      | error e => simp [parseOk, parse_cmd_packet, hr]
      | ok p =>
        have hlen := readSeqs_ok_length b3 rest p.1 p.2 (by rw [hr])
        match hp : p.2 with
        | [] => simp [parseOk, parse_cmd_packet, hr, hp]
        | [x] => simp [parseOk, parse_cmd_packet, hr, hp]
        | x :: y :: t =>
          rw [hp] at hlen
          simp at hlen
          omega

/-- **C10 witness.** -/
theorem parse_cmd_packet_not_total_witness :
    (([1, 0] : List Nat).length < 4 ∧ parseOk [1, 0] = none) ∧
    (([0, 0] : List Nat).length < 2 * 3 + 2 ∧
      parseOk [1, 0, 5, 3, 0, 0] = none) :=
  ⟨⟨by decide, parse_cmd_packet_not_total.1 [1, 0] (by decide)⟩,
   ⟨by decide, parse_cmd_packet_not_total.2 1 0 5 3 [0, 0] (by decide)⟩⟩

/-- Squaring the dB/20 pressure conversion lands exactly on the dB/10 power
conversion: `(10^(L/20))² = 10^(L/10)`. -/
theorem power_linear_eq_db10 (cfg : AcousticPhysicsConfig) :
    transmission_power_linear cfg = db10_only_power_linear cfg.transmission_power_db ∧
    noise_power_linear cfg = db10_only_power_linear cfg.noise_level_db := by
  constructor
  · rw [transmission_power_linear, transmission_pressure_linear, db10_only_power_linear,
      ← Real.rpow_natCast ((10 : ℝ) ^ (cfg.transmission_power_db / 20)) 2,
      ← Real.rpow_mul (by norm_num : (0 : ℝ) ≤ 10)]
    congr 1
    push_cast
    ring
  · rw [noise_power_linear, noise_pressure_linear, db10_only_power_linear,
      ← Real.rpow_natCast ((10 : ℝ) ^ (cfg.noise_level_db / 20)) 2,
      ← Real.rpow_mul (by norm_num : (0 : ℝ) ≤ 10)]
    congr 1
    push_cast
    ring

/-- **C3 counterexample.**  The claim says that for the DEFAULT
configuration the source and noise terms entering the mean-SNR computation
under the pressure-corrected conversion (the square of `10^(dB/20)`)
differ from the uncorrected dB/10-only terms (`10^(dB/10)`) by roughly a
factor of two in the dB domain.  At the DEFAULT configuration
(source 170 dB, noise 50 dB) the two conversions agree *exactly*: both
power terms sit at base-10 logarithms 17 and 5 respectively, so their
dB-domain values are identical, not a factor of two apart. -/
theorem corrected_equals_db10_at_default :
    transmission_power_linear DEFAULT_CONFIG = db10_only_power_linear 170 ∧
    noise_power_linear DEFAULT_CONFIG = db10_only_power_linear 50 ∧
    Real.logb 10 (transmission_power_linear DEFAULT_CONFIG) = 17 ∧
    Real.logb 10 (db10_only_power_linear 170) = 17 := by
  have h170 : DEFAULT_CONFIG.transmission_power_db = 170 := rfl
  have h50 : DEFAULT_CONFIG.noise_level_db = 50 := rfl
  have hp := power_linear_eq_db10 DEFAULT_CONFIG
  have hlog : Real.logb 10 (db10_only_power_linear 170) = 17 := by
    rw [db10_only_power_linear,
      Real.logb_rpow (by norm_num : (0 : ℝ) < 10) (by norm_num : (10 : ℝ) ≠ 1)]
    norm_num
  refine ⟨by rw [hp.1, h170], by rw [hp.2, h50], ?_, hlog⟩
  rw [hp.1, h170, hlog]

/-- **C3 amended.**  The pressure-corrected power terms (the square of
`10^(dB/20)`) entering the mean-SNR computation are *equal* to the
uncorrected dB/10-only terms for every configuration; the factor-of-two
relationship in the dB domain holds instead between the *unsquared*
pressure conversion `10^(dB/20)` and the dB/10-only power term: the
base-10 logarithm of the former is exactly half that of the latter. -/
theorem pressure_power_db_domain_relation (cfg : AcousticPhysicsConfig) :
    transmission_power_linear cfg = db10_only_power_linear cfg.transmission_power_db ∧
    noise_power_linear cfg = db10_only_power_linear cfg.noise_level_db ∧
    Real.logb 10 (transmission_pressure_linear cfg) =
      Real.logb 10 (db10_only_power_linear cfg.transmission_power_db) / 2 ∧
    Real.logb 10 (noise_pressure_linear cfg) =
      Real.logb 10 (db10_only_power_linear cfg.noise_level_db) / 2 := by
  have h10 : (0 : ℝ) < 10 := by norm_num
  have h1 : (10 : ℝ) ≠ 1 := by norm_num
  refine ⟨(power_linear_eq_db10 cfg).1, (power_linear_eq_db10 cfg).2, ?_, ?_⟩
  · rw [transmission_pressure_linear, db10_only_power_linear,
      Real.logb_rpow h10 h1, Real.logb_rpow h10 h1]
    ring
  · rw [noise_pressure_linear, db10_only_power_linear,
      Real.logb_rpow h10 h1, Real.logb_rpow h10 h1]
    ring

/-- **C4.**  The claim says two runs with identical seed, configuration and
tick count produce identical event logs, timing fields included.  The code
stamps every `PacketTransmission` with `time.time()` — the wall clock at
the moment of the call — and `SimulationController.__init__` likewise
stores `time.time()` with no seed parameter anywhere, drawing from the
never-seeded global `random` module.  Evaluating `simulate_transmission`
twice with *identical* packet counter, endpoints, sizes, positions and
identical RNG draws, but at wall-clock instants 0 and 1, yields event
records that differ (in `transmission_time`), refuting log equality. -/
theorem simulate_transmission_depends_on_wall_clock :
    (LegacyModel.simulate_transmission 0 "ship" "submarine" "command" 50
      (0, 0, 0) (100, 0, 10) 0 (1/2) (1/2) (1/2)).transmission_time = 0 ∧
    (LegacyModel.simulate_transmission 0 "ship" "submarine" "command" 50
      (0, 0, 0) (100, 0, 10) 1 (1/2) (1/2) (1/2)).transmission_time = 1 ∧
    LegacyModel.simulate_transmission 0 "ship" "submarine" "command" 50
      (0, 0, 0) (100, 0, 10) 0 (1/2) (1/2) (1/2) ≠
    LegacyModel.simulate_transmission 0 "ship" "submarine" "command" 50
      (0, 0, 0) (100, 0, 10) 1 (1/2) (1/2) (1/2) := by
  refine ⟨rfl, rfl, fun h => ?_⟩
  have h' := congrArg LegacyModel.PacketTransmission.transmission_time h
  simp only [LegacyModel.simulate_transmission] at h'
  norm_num at h'

/-- **C9.**  At any distance `d ≤ 0` (in particular `d = 0`), for every
configuration, depth pair and packet size, the physics-based
`calculate_packet_loss_probability` of the packaged
`models/communication_model.py` returns exactly `(0, "zero_distance")`.
The legacy heuristic model in `src/models/communication_model.py`,
however, has no such branch: at distance 0 it walks the ordinary SNR
ladder and reports reason `"good_snr"` whatever its random interference
draw — contradicting the claim for that copy of the function. -/
theorem zero_distance_packet_loss :
    (∀ (cfg : AcousticPhysicsConfig) (d sd bd size : ℝ), d ≤ 0 →
      physics_calculate_packet_loss_probability cfg d sd bd size =
        (0, "zero_distance")) ∧
    (∀ u : ℝ,
      (LegacyModel.calculate_packet_loss_probability 0 5 50 50 u).2 = "good_snr") := by
  constructor
  · intro cfg d sd bd size hd
    rw [physics_calculate_packet_loss_probability, if_pos hd]
  · intro u
    norm_num [LegacyModel.calculate_packet_loss_probability,
      LegacyModel.calculate_propagation_loss]

/-- **C9 witness.** -/
theorem zero_distance_packet_loss_witness :
    (0 : ℝ) ≤ 0 ∧
    physics_calculate_packet_loss_probability DEFAULT_CONFIG 0 5 50 50 =
      (0, "zero_distance") :=
  ⟨le_refl 0, zero_distance_packet_loss.1 DEFAULT_CONFIG 0 5 50 50 (le_refl 0)⟩

/- ----------------------------------------------------------------- -/
/- Concrete fixtures for the game-state claims                         -/
/- ----------------------------------------------------------------- -/

/-- Trig evaluations at heading 0° (due east): `cos(radians(0)) = 1`,
`sin(radians(0)) = 0` exactly; used for concrete states with heading 0. -/
def trigEast : ℚ → ℚ × ℚ := fun _ => (1, 0)

/-- A submarine in the middle of its operating envelope (all dataclass
defaults, heading east, depth 50 m). -/
def sub0 : Submarine := { x := 0, y := 0, z := 10, heading := 0, depth := 50 }

/-- A submarine 350 m east of the ship, heading east (defaults otherwise). -/
def subC6 : Submarine := { x := 350, y := 0, z := 0, heading := 0, depth := 50 }

/-- A submarine 1999 m east of the ship, heading east (defaults otherwise). -/
def subC7 : Submarine := { x := 1999, y := 0, z := 0, heading := 0, depth := 50 }

/-- Evaluation of `execute_command` on ASCEND: safety check first, then the
guarded descent of `depth` by `min(param, ascent_descent_rate)` clamped at
`min_depth`. -/
theorem execute_ascend (trig : ℚ → ℚ × ℚ) (s : Submarine) (p : ℤ) :
    execute_command trig s .ASCEND p =
      if s.depth - (p : ℚ) < s.min_depth then
        ((false, "ascend_would_exceed_min_depth"), s)
      else if s.min_depth < s.depth then
        ((true, "ascend_executed"), updatePressure { s with
          state := .ASCENDING,
          depth := max s.min_depth (s.depth - min (p : ℚ) s.ascent_descent_rate) })
      else ((false, "command_not_executed"), s) := by
  by_cases h1 : s.depth - (p : ℚ) < s.min_depth
  · simp [execute_command, is_safe_to_execute_command, h1]
  · by_cases h2 : s.min_depth < s.depth
    · simp [execute_command, is_safe_to_execute_command, h1, h2]
    · simp [execute_command, is_safe_to_execute_command, h1, h2]

/-- Evaluation of `execute_command` on DESCEND: safety check first, then
the guarded increase of `depth` by `min(param, ascent_descent_rate)`
clamped at `max_depth`. -/
theorem execute_descend (trig : ℚ → ℚ × ℚ) (s : Submarine) (p : ℤ) :
    execute_command trig s .DESCEND p =
      if s.max_depth < s.depth + (p : ℚ) then
        ((false, "descend_would_exceed_max_depth"), s)
      else if s.depth < s.max_depth then
        ((true, "descend_executed"), updatePressure { s with
          state := .DESCENDING,
          depth := min s.max_depth (s.depth + min (p : ℚ) s.ascent_descent_rate) })
      else ((false, "command_not_executed"), s) := by
  by_cases h1 : s.max_depth < s.depth + (p : ℚ)
  · simp [execute_command, is_safe_to_execute_command, h1]
  · by_cases h2 : s.depth < s.max_depth
    · simp [execute_command, is_safe_to_execute_command, h1, h2]
    · simp [execute_command, is_safe_to_execute_command, h1, h2]

/-- One ASCEND/DESCEND step with a nonnegative parameter keeps the depth
inside `[min_depth, max_depth]` and leaves the depth-limit and rate fields
untouched. -/
theorem depth_bounds_step (trig : ℚ → ℚ × ℚ) (s : Submarine)
    (cmd : FullCommandCode) (p : ℤ)
    (hcmd : cmd = .ASCEND ∨ cmd = .DESCEND) (hp : 0 ≤ p)
    (hrate : 0 ≤ s.ascent_descent_rate)
    (hlo : s.min_depth ≤ s.depth) (hhi : s.depth ≤ s.max_depth) :
    (execute_command trig s cmd p).2.min_depth = s.min_depth ∧
    (execute_command trig s cmd p).2.max_depth = s.max_depth ∧
    (execute_command trig s cmd p).2.ascent_descent_rate = s.ascent_descent_rate ∧
    s.min_depth ≤ (execute_command trig s cmd p).2.depth ∧
    (execute_command trig s cmd p).2.depth ≤ s.max_depth := by
  have hpq : (0 : ℚ) ≤ (p : ℚ) := by exact_mod_cast hp
  have hminpr : (0 : ℚ) ≤ min (p : ℚ) s.ascent_descent_rate := le_min hpq hrate
  rcases hcmd with h | h <;> subst h
  · rw [execute_ascend]
    split_ifs with h1 h2
    · exact ⟨rfl, rfl, rfl, hlo, hhi⟩
    · refine ⟨rfl, rfl, rfl, le_max_left _ _, max_le (le_trans hlo hhi) ?_⟩
      linarith
    · exact ⟨rfl, rfl, rfl, hlo, hhi⟩
  · rw [execute_descend]
    split_ifs with h1 h2
    · exact ⟨rfl, rfl, rfl, hlo, hhi⟩
    · refine ⟨rfl, rfl, rfl, le_min (le_trans hlo hhi) ?_, min_le_left _ _⟩
      linarith
    · exact ⟨rfl, rfl, rfl, hlo, hhi⟩

/-- **C5 counterexample.**  The claim quantifies over *any* integer
parameters.  A single DESCEND with the negative parameter −1000, from the
default submarine at depth 50 (bounds [0, 200]), passes the safety check
(50 + (−1000) = −950 does not exceed `max_depth`), computes
`descent = min(−1000, 2) = −1000`, and sets
`depth = min(200, 50 + (−1000)) = −950`, far below `min_depth = 0`. -/
theorem depth_bound_fails_on_negative_param :
    sub0.min_depth = 0 ∧ sub0.max_depth = 200 ∧ sub0.depth = 50 ∧
    (execute_sequence trigEast sub0 [(.DESCEND, -1000)]).depth = -950 ∧
    ¬ sub0.min_depth ≤ (execute_sequence trigEast sub0 [(.DESCEND, -1000)]).depth := by
  have h : (execute_sequence trigEast sub0 [(.DESCEND, -1000)]).depth = -950 := by
    show ((execute_command trigEast sub0 .DESCEND (-1000)).2).depth = -950
    rw [execute_descend]
    norm_num [sub0, updatePressure]
  refine ⟨rfl, rfl, rfl, h, ?_⟩
  rw [h]
  norm_num [sub0]

/-- **C5 amended.**  For every submarine whose depth lies in
`[min_depth, max_depth]` and whose ascent/descent rate is nonnegative (the
dataclass default is 2), after executing any finite sequence of ASCEND and
DESCEND commands with *nonnegative* integer parameters through
`execute_command`, the depth still lies in `[min_depth, max_depth]`.  (The
restriction to nonnegative parameters is forced by the counterexample: a
negative parameter escapes both clamps.) -/
theorem depth_bounds_preserved (trig : ℚ → ℚ × ℚ) (s : Submarine)
    (cmds : List (FullCommandCode × ℤ))
    (hcmds : ∀ c ∈ cmds, (c.1 = .ASCEND ∨ c.1 = .DESCEND) ∧ 0 ≤ c.2)
    (hrate : 0 ≤ s.ascent_descent_rate)
    (hlo : s.min_depth ≤ s.depth) (hhi : s.depth ≤ s.max_depth) :
    s.min_depth ≤ (execute_sequence trig s cmds).depth ∧
    (execute_sequence trig s cmds).depth ≤ s.max_depth := by
  induction cmds generalizing s with
  | nil => exact ⟨hlo, hhi⟩
  | cons c cs ih =>
    obtain ⟨hmineq, hmaxeq, hrateeq, hlo1, hhi1⟩ :=
      depth_bounds_step trig s c.1 c.2 (hcmds c (List.mem_cons_self c cs)).1
        (hcmds c (List.mem_cons_self c cs)).2 hrate hlo hhi
    have hrest := ih ((execute_command trig s c.1 c.2).2)
      (fun d hd => hcmds d (List.mem_cons_of_mem c hd))
      (by rw [hrateeq]; exact hrate)
      (by rw [hmineq]; exact hlo1)
      (by rw [hmaxeq]; exact hhi1)
    have hseq : execute_sequence trig s (c :: cs) =
        execute_sequence trig ((execute_command trig s c.1 c.2).2) cs := rfl
    rw [hseq]
    exact ⟨hmineq ▸ hrest.1, hmaxeq ▸ hrest.2⟩

/-- **C5 witness.** -/
theorem depth_bounds_preserved_witness :
    ((∀ c ∈ [((FullCommandCode.ASCEND : FullCommandCode), (10 : ℤ)),
        (.DESCEND, 5), (.ASCEND, 1)],
        (c.1 = .ASCEND ∨ c.1 = .DESCEND) ∧ 0 ≤ c.2) ∧
      0 ≤ sub0.ascent_descent_rate ∧
      sub0.min_depth ≤ sub0.depth ∧ sub0.depth ≤ sub0.max_depth) ∧
    (sub0.min_depth ≤
        (execute_sequence trigEast sub0
          [(.ASCEND, 10), (.DESCEND, 5), (.ASCEND, 1)]).depth ∧
      (execute_sequence trigEast sub0
          [(.ASCEND, 10), (.DESCEND, 5), (.ASCEND, 1)]).depth ≤ sub0.max_depth) :=
  ⟨⟨by decide, by decide, by decide, by decide⟩,
    depth_bounds_preserved trigEast sub0
      [(.ASCEND, 10), (.DESCEND, 5), (.ASCEND, 1)]
      (by decide) (by decide) (by decide) (by decide)⟩

/-- **C6 counterexample.**  At the state `subC6` (350 m east of the ship,
heading east, default speed 5) with `param = 100`, the source's safety
check projects by the *full* parameter: `new_x = 350 + 100 = 450`, which
trips the hardcoded 400 m world boundary, so `is_safe_to_execute_command`
rejects — although the projection by the clamped displacement
`min(100, 5) = 5` that an accepted MOVE would actually apply lands at
355 m, inside both the 400 m boundary of the code and the 500 m world
half-extent (`world_size 1000 / 2`), so the check described by the claim
accepts. -/
theorem move_safety_clamped_projection_differs :
    (is_safe_to_execute_command trigEast subC6 .MOVE 100).1 = false ∧
    specSafeMove trigEast 400 subC6 100 = true ∧
    specSafeMove trigEast 500 subC6 100 = true := by
  refine ⟨?_, ?_, ?_⟩ <;>
    norm_num [is_safe_to_execute_command, specSafeMove, subC6, trigEast,
      min_def, abs]

/-- **C6 amended.**  The MOVE safety check projects the new (x, y) from the
current position along the current heading by the *unclamped* parameter —
not by the clamped displacement `min(param, speed)` that an accepted MOVE
actually applies — and rejects exactly when that full-parameter projection
exceeds `max_safe_distance_from_ship` in distance from the ship origin or
exceeds the hardcoded conservative 400 m boundary in `|x|` or `|y|` (not
the world half-extent); an accepted MOVE from the IDLE or STOPPED state
then displaces the position by `min(param, speed)` along the heading. -/
theorem move_safety_characterization (trig : ℚ → ℚ × ℚ) (s : Submarine)
    (p : ℤ) (hstate : s.state = .IDLE ∨ s.state = .STOPPED) :
    ((is_safe_to_execute_command trig s .MOVE p).1 = true ↔
      ((s.x + (p : ℚ) * (trig s.heading).1) ^ 2 +
          (s.y + (p : ℚ) * (trig s.heading).2) ^ 2 ≤
          s.max_safe_distance_from_ship ^ 2 ∧
        |s.x + (p : ℚ) * (trig s.heading).1| ≤ 400 ∧
        |s.y + (p : ℚ) * (trig s.heading).2| ≤ 400)) ∧
    ((is_safe_to_execute_command trig s .MOVE p).1 = true →
      (execute_command trig s .MOVE p).2.x =
        s.x + min (p : ℚ) s.speed * (trig s.heading).1 ∧
      (execute_command trig s .MOVE p).2.y =
        s.y + min (p : ℚ) s.speed * (trig s.heading).2) := by
  constructor
  · simp only [is_safe_to_execute_command]
    split_ifs with h1 h2
    · refine iff_of_false (by simp) ?_
      rintro ⟨hle, -, -⟩
      exact absurd hle (not_le.mpr h1)
    · refine iff_of_false (by simp) ?_
      rintro ⟨-, hx, hy⟩
      rcases h2 with h | h
      · exact absurd hx (not_le.mpr h)
      · exact absurd hy (not_le.mpr h)
    · push_neg at h2
      exact iff_of_true rfl ⟨le_of_not_lt h1, h2.1, h2.2⟩
  · intro hsafe
    simp only [execute_command, hsafe]
    rw [if_neg (by simp), if_pos hstate]
    exact ⟨rfl, rfl⟩

/-- **C6 witness.** -/
theorem move_safety_characterization_witness :
    (sub0.state = .IDLE ∨ sub0.state = .STOPPED) ∧
    ((is_safe_to_execute_command trigEast sub0 .MOVE 3).1 = true ∧
      (execute_command trigEast sub0 .MOVE 3).2.x =
        sub0.x + min ((3 : ℤ) : ℚ) sub0.speed * (trigEast sub0.heading).1 ∧
      (execute_command trigEast sub0 .MOVE 3).2.y =
        sub0.y + min ((3 : ℤ) : ℚ) sub0.speed * (trigEast sub0.heading).2) :=
  have hsafe : (is_safe_to_execute_command trigEast sub0 .MOVE 3).1 = true := by
    norm_num [is_safe_to_execute_command, sub0, trigEast, abs]
  ⟨Or.inl rfl,
    hsafe,
    (move_safety_characterization trigEast sub0 3 (Or.inl rfl)).2 hsafe⟩

/-- **C7.**  If a MOVE command's projected 2D distance from the ship origin
(the projection by the full parameter that the source computes) would
exceed the nonnegative `max_safe_distance_from_ship` — phrased here as the
equivalent comparison of squares, since the source compares
`sqrt(new_x² + new_y²) > max_safe_distance_from_ship` — then
`execute_command` returns `(False, "move_would_exceed_safe_distance")` and
the submarine record (position, heading, depth, pressure and operating
state) is returned entirely unchanged. -/
theorem move_rejected_unchanged (trig : ℚ → ℚ × ℚ) (s : Submarine) (p : ℤ)
    (hms : 0 ≤ s.max_safe_distance_from_ship)
    (hproj : s.max_safe_distance_from_ship ^ 2 <
      (s.x + (p : ℚ) * (trig s.heading).1) ^ 2 +
        (s.y + (p : ℚ) * (trig s.heading).2) ^ 2) :
    execute_command trig s .MOVE p =
      ((false, "move_would_exceed_safe_distance"), s) := by
  simp [execute_command, is_safe_to_execute_command, hproj]

/-- **C7 witness.** -/
theorem move_rejected_unchanged_witness :
    (0 ≤ subC7.max_safe_distance_from_ship ∧
      subC7.max_safe_distance_from_ship ^ 2 <
        (subC7.x + ((100 : ℤ) : ℚ) * (trigEast subC7.heading).1) ^ 2 +
          (subC7.y + ((100 : ℤ) : ℚ) * (trigEast subC7.heading).2) ^ 2) ∧
    execute_command trigEast subC7 .MOVE 100 =
      ((false, "move_would_exceed_safe_distance"), subC7) :=
  ⟨⟨by decide, by norm_num [subC7, trigEast]⟩,
    move_rejected_unchanged trigEast subC7 100 (by decide)
      (by norm_num [subC7, trigEast])⟩

/-- Thorp's absorption coefficient is nonnegative for every frequency. -/
theorem alpha_thorp_nonneg (f : ℝ) : 0 ≤ alpha_thorp f := by
  unfold alpha_thorp
  have h1 : (0 : ℝ) < 1 + f ^ 2 := by positivity
  have h2 : (0 : ℝ) < 4100 + f ^ 2 := by positivity
  positivity

/-- Transmission loss is nondecreasing in distance beyond 1 m for a
nonnegative spreading exponent. -/
theorem transmission_loss_mono (f s a : ℝ) (hs : 0 ≤ s) (d1 d2 : ℝ)
    (h1 : 1 ≤ d1) (h12 : d1 ≤ d2) :
    transmission_loss d1 f s a ≤ transmission_loss d2 f s a := by
  unfold transmission_loss
  have hd1 : 0 < d1 := lt_of_lt_of_le one_pos h1
  have hlog : Real.logb 10 d1 ≤ Real.logb 10 d2 :=
    Real.logb_le_logb_of_le (by norm_num) hd1 h12
  have hsp : 10 * s * Real.logb 10 d1 ≤ 10 * s * Real.logb 10 d2 :=
    mul_le_mul_of_nonneg_left hlog (by positivity)
  have habs : alpha_thorp f * d1 ≤ alpha_thorp f * d2 :=
    mul_le_mul_of_nonneg_left h12 (alpha_thorp_nonneg f)
  linarith

/-- The linear attenuation factor is positive and nondecreasing in the
dB-domain loss. -/
theorem linear_attenuation_pos (tl : ℝ) : 0 < linear_attenuation tl :=
  Real.rpow_pos_of_pos (by norm_num) _

/-- Monotonicity of `linear_attenuation`. -/
theorem linear_attenuation_mono {tl1 tl2 : ℝ} (h : tl1 ≤ tl2) :
    linear_attenuation tl1 ≤ linear_attenuation tl2 := by
  unfold linear_attenuation
  exact (Real.rpow_le_rpow_left_iff (by norm_num : (1 : ℝ) < 10)).mpr
    (by linarith)

/-- Core monotonicity: for positive source power, noise power and required
SNR, nonnegative spreading exponent, and `1 ≤ d1 ≤ d2`, the Rayleigh-fading
packet-loss probability at `d2` is at least that at `d1`. -/
theorem packet_loss_probability_mono (P0 N f gamma_req s a : ℝ)
    (hP0 : 0 < P0) (hN : 0 < N) (hg : 0 < gamma_req) (hs : 0 ≤ s)
    (d1 d2 : ℝ) (h1 : 1 ≤ d1) (h12 : d1 ≤ d2) :
    packet_loss_probability d1 P0 N f gamma_req s a ≤
      packet_loss_probability d2 P0 N f gamma_req s a := by
  have hγ0 : 0 < P0 / N := div_pos hP0 hN
  have hL1 := linear_attenuation_pos (transmission_loss d1 f s a)
  have hL2 := linear_attenuation_pos (transmission_loss d2 f s a)
  have hLmono : linear_attenuation (transmission_loss d1 f s a) ≤
      linear_attenuation (transmission_loss d2 f s a) :=
    linear_attenuation_mono (transmission_loss_mono f s a hs d1 d2 h1 h12)
  have hm2pos : 0 < compute_gamma_mean d2 P0 N f s a := div_pos hγ0 hL2
  have hm21 : compute_gamma_mean d2 P0 N f s a ≤
      compute_gamma_mean d1 P0 N f s a := by
    unfold compute_gamma_mean
    exact div_le_div_of_nonneg_left hγ0.le hL1 hLmono
  have hexp : gamma_req / compute_gamma_mean d1 P0 N f s a ≤
      gamma_req / compute_gamma_mean d2 P0 N f s a :=
    div_le_div_of_nonneg_left hg.le hm2pos hm21
  unfold packet_loss_probability
  have := Real.exp_le_exp.mpr (neg_le_neg hexp)
  linarith

/-- **C8.**  For every acoustic configuration with nonnegative spreading
exponent (every documented preset uses 1.0–2.0) and all distances
`1 ≤ d1 ≤ d2`, `packet_loss_probability` — called with that configuration's
derived linear source power, noise power, frequency (kHz), required SNR,
spreading exponent and site anomaly, exactly as the packaged communication
model wires it — is non-decreasing from `d1` to `d2`; in particular its
values at d = 100, 1000, 5000, 10000 are non-decreasing. -/
theorem packet_loss_probability_nondecreasing (cfg : AcousticPhysicsConfig)
    (hs : 0 ≤ cfg.spreading_exponent) (d1 d2 : ℝ) (h1 : 1 ≤ d1) (h12 : d1 ≤ d2) :
    packet_loss_probability d1 (transmission_power_linear cfg)
        (noise_power_linear cfg) (frequency_khz cfg) (required_snr_linear cfg)
        cfg.spreading_exponent cfg.site_anomaly_db ≤
      packet_loss_probability d2 (transmission_power_linear cfg)
        (noise_power_linear cfg) (frequency_khz cfg) (required_snr_linear cfg)
        cfg.spreading_exponent cfg.site_anomaly_db := by
  have hP0 : 0 < transmission_power_linear cfg := by
    unfold transmission_power_linear transmission_pressure_linear
    positivity
  have hN : 0 < noise_power_linear cfg := by
    unfold noise_power_linear noise_pressure_linear
    positivity
  have hg : 0 < required_snr_linear cfg := by
    unfold required_snr_linear
    positivity
  exact packet_loss_probability_mono _ _ _ _ _ _ hP0 hN hg hs d1 d2 h1 h12

/-- **C8 witness** (the spot-check distances 100, 1000, 5000, 10000 for
the DEFAULT configuration). -/
theorem packet_loss_probability_nondecreasing_witness :
    (0 ≤ DEFAULT_CONFIG.spreading_exponent ∧ (1 : ℝ) ≤ 100 ∧ (100 : ℝ) ≤ 1000 ∧
      (1 : ℝ) ≤ 1000 ∧ (1000 : ℝ) ≤ 5000 ∧ (1 : ℝ) ≤ 5000 ∧ (5000 : ℝ) ≤ 10000) ∧
    (packet_loss_probability 100 (transmission_power_linear DEFAULT_CONFIG)
        (noise_power_linear DEFAULT_CONFIG) (frequency_khz DEFAULT_CONFIG)
        (required_snr_linear DEFAULT_CONFIG) DEFAULT_CONFIG.spreading_exponent
        DEFAULT_CONFIG.site_anomaly_db ≤
      packet_loss_probability 1000 (transmission_power_linear DEFAULT_CONFIG)
        (noise_power_linear DEFAULT_CONFIG) (frequency_khz DEFAULT_CONFIG)
        (required_snr_linear DEFAULT_CONFIG) DEFAULT_CONFIG.spreading_exponent
        DEFAULT_CONFIG.site_anomaly_db) ∧
    (packet_loss_probability 1000 (transmission_power_linear DEFAULT_CONFIG)
        (noise_power_linear DEFAULT_CONFIG) (frequency_khz DEFAULT_CONFIG)
        (required_snr_linear DEFAULT_CONFIG) DEFAULT_CONFIG.spreading_exponent
        DEFAULT_CONFIG.site_anomaly_db ≤
      packet_loss_probability 5000 (transmission_power_linear DEFAULT_CONFIG)
        (noise_power_linear DEFAULT_CONFIG) (frequency_khz DEFAULT_CONFIG)
        (required_snr_linear DEFAULT_CONFIG) DEFAULT_CONFIG.spreading_exponent
        DEFAULT_CONFIG.site_anomaly_db) ∧
    (packet_loss_probability 5000 (transmission_power_linear DEFAULT_CONFIG)
        (noise_power_linear DEFAULT_CONFIG) (frequency_khz DEFAULT_CONFIG)
        (required_snr_linear DEFAULT_CONFIG) DEFAULT_CONFIG.spreading_exponent
        DEFAULT_CONFIG.site_anomaly_db ≤
      packet_loss_probability 10000 (transmission_power_linear DEFAULT_CONFIG)
        (noise_power_linear DEFAULT_CONFIG) (frequency_khz DEFAULT_CONFIG)
        (required_snr_linear DEFAULT_CONFIG) DEFAULT_CONFIG.spreading_exponent
        DEFAULT_CONFIG.site_anomaly_db) :=
  ⟨⟨by norm_num [DEFAULT_CONFIG], by norm_num, by norm_num, by norm_num,
      by norm_num, by norm_num, by norm_num⟩,
    packet_loss_probability_nondecreasing DEFAULT_CONFIG
      (by norm_num [DEFAULT_CONFIG]) 100 1000 (by norm_num) (by norm_num),
    packet_loss_probability_nondecreasing DEFAULT_CONFIG
      (by norm_num [DEFAULT_CONFIG]) 1000 5000 (by norm_num) (by norm_num),
    packet_loss_probability_nondecreasing DEFAULT_CONFIG
      (by norm_num [DEFAULT_CONFIG]) 5000 10000 (by norm_num) (by norm_num)⟩
